import Mathlib

/-!
Verification of the nextjs-boilerplate-cli scaffolding tool.

The tool is a Node CLI operating on the current working directory's
filesystem.  We embed the filesystem as a pair of a directory list and an
association list from file paths to contents, both using paths relative to
the working directory (`path.join(process.cwd(), p)` normalises a leading
slash away, which `joinCwd` mirrors; filesystem calls made on a raw string
keep that string verbatim).  Each command's state transformation is
translated directly from the source file.
-/

/-- A snapshot of the filesystem: existing directories and files with
their contents.  Paths are strings exactly as the tool computes them. -/
structure FS where
  dirs : List String
  files : List (String × String)
deriving DecidableEq, Repr

/-- True when a directory named `p` exists. -/
def FS.hasDir (fs : FS) (p : String) : Bool :=
  fs.dirs.any (fun q => q == p)

/-- True when a file named `p` exists. -/
def FS.hasFile (fs : FS) (p : String) : Bool :=
  fs.files.any (fun e => e.1 == p)

/-- Model of `fs.existsSync`: true when a directory or file exists at `p`. -/
def FS.pathExists (fs : FS) (p : String) : Bool :=
  fs.hasDir p || fs.hasFile p

/-- Model of `fs.readFileSync` on the project tree (`none` when absent). -/
def FS.readFile (fs : FS) (p : String) : Option String :=
  (fs.files.find? (fun e => e.1 == p)).map (fun e => e.2)

/-- Rebuild a string from its characters. -/
def ofChars (l : List Char) : String := String.mk l

/-- Split a character list at a separator character (structural recursion,
so that every command model evaluates inside the kernel). -/
def splitOnCharAux (sep : Char) : List Char → List Char → List (List Char)
  | [], acc => [acc.reverse]
  | c :: rest, acc =>
    if c = sep then acc.reverse :: splitOnCharAux sep rest []
    else splitOnCharAux sep rest (c :: acc)

/-- Model of the JS `split(sep)` for a one-character separator. -/
def splitOnChar (sep : Char) (s : String) : List String :=
  (splitOnCharAux sep s.data []).map ofChars

/-- Model of the JS `trim()`: strip leading and trailing whitespace. -/
def trimChars (s : String) : String :=
  ofChars (((s.data.dropWhile Char.isWhitespace).reverse.dropWhile
    Char.isWhitespace).reverse)

/-- Join strings with a separator (model of `Array.join` / intercalate). -/
def joinWith (sep : String) : List String → String
  | [] => ""
  | [x] => x
  | x :: xs => x ++ sep ++ joinWith sep xs

/-- Model of the JS `toLowerCase()` (ASCII, which is all the tool compares). -/
def lowerStr (s : String) : String := ofChars (s.data.map Char.toLower)

/-- Whether a character list begins with another (structural). -/
def hasPrefixChars : List Char → List Char → Bool
  | _, [] => true
  | [], _ :: _ => false
  | c :: cs, d :: ds => c == d && hasPrefixChars cs ds

/-- Whether `sub` occurs in a character list (structural). -/
def containsSubChars (sub : List Char) : List Char → Bool
  | [] => sub.isEmpty
  | c :: rest => hasPrefixChars (c :: rest) sub || containsSubChars sub rest

/-- Whether the string `sub` occurs as a substring of `s` — used to state
what the rewritten aggregator file references. -/
def containsSub (s sub : String) : Bool := containsSubChars sub.data s.data

/-- The strict prefixes of a slash-separated path, shortest first. -/
def properAncestors (p : String) : List String :=
  let parts := splitOnChar '/' p
  (List.range (parts.length - 1)).map
    (fun i => joinWith "/" (parts.take (i + 1)))

/-- Model of `shell.mkdir("-p", p)`: create `p` and any missing ancestors. -/
def FS.mkdirp (fs : FS) (p : String) : FS :=
  { fs with dirs :=
      fs.dirs ++ (properAncestors p ++ [p]).filter (fun q => !(fs.hasDir q)) }

/-- Model of `fs.writeFileSync`: create or fully replace the file at `p`. -/
def FS.writeFile (fs : FS) (p c : String) : FS :=
  { fs with files := (p, c) :: fs.files.filter (fun e => !(e.1 == p)) }

/-- Model of `fs.appendFileSync`: append to the file at `p`, creating it
when absent. -/
def FS.appendFile (fs : FS) (p s : String) : FS :=
  match fs.readFile p with
  | some c => fs.writeFile p (c ++ s)
  | none => fs.writeFile p s

/-- Model of `path.join(process.cwd(), p)` followed by taking the path
relative to the working directory: a leading slash disappears. -/
def joinCwd (p : String) : String :=
  match p.data with
  | [] => p
  | c :: rest => if c = '/' then ofChars rest else p

/-- The guarded directory creation pattern used throughout the source:
`if (!fs.existsSync(p)) shell.mkdir("-p", p)`. -/
def ensureDir (fs : FS) (p : String) : FS :=
  if fs.pathExists p then fs else fs.mkdirp p

/-- The guarded file creation pattern used throughout the source:
`if (!fs.existsSync(p)) fs.writeFileSync(p, c)`. -/
def ensureFile (fs : FS) (p c : String) : FS :=
  if fs.pathExists p then fs else fs.writeFile p c

/-- The source's `forEach` loop shape creating one guarded directory per
element. -/
def ensureDirsFold {α : Type} (key : α → String) (l : List α) (fs : FS) : FS :=
  l.foldl (fun acc v => ensureDir acc (key v)) fs

/-- The source's `forEach` loop shape creating one guarded file per
element. -/
def ensureFilesFold {α : Type} (key cnt : α → String) (l : List α) (fs : FS) : FS :=
  l.foldl (fun acc v => ensureFile acc (key v) (cnt v)) fs

/-- The source's `forEach` loop shape creating two guarded files per
element (slice file and type file). -/
def ensureFile2Fold {α : Type} (key1 cnt1 key2 cnt2 : α → String) (l : List α)
    (fs : FS) : FS :=
  l.foldl
    (fun acc v => ensureFile (ensureFile acc (key1 v) (cnt1 v)) (key2 v) (cnt2 v)) fs

/-- The two routing conventions (`routerType` strings in the source). -/
inductive RouterType where
  | app
  | pages
deriving DecidableEq, Repr

/-- The record returned by `detectProjectSetup`. -/
structure ProjectSetup where
  routerType : RouterType
  hasSrc : Bool
  hasPages : Bool
deriving DecidableEq, Repr

/-- The App-style marker directory the detector probes: `src/app` when a
`src` directory exists, else `app`. -/
def appMarker (fs : FS) : String :=
  if fs.pathExists "src" then "src/app" else "app"

/-- The Pages-style marker directory the detector probes: `src/pages` when
a `src` directory exists, else `pages`. -/
def pagesMarker (fs : FS) : String :=
  if fs.pathExists "src" then "src/pages" else "pages"

/-- Model of `detectProjectSetup`: `none` stands for the fatal
`process.exit(1)` branch (no routing convention found). -/
def detectProjectSetup (fs : FS) : Option ProjectSetup :=
  let hasSrc := fs.pathExists "src"
  let hasApp := fs.pathExists (appMarker fs)
  let hasPages := fs.pathExists (pagesMarker fs)
  if hasApp then some (ProjectSetup.mk RouterType.app hasSrc hasPages)
  else if hasPages then some (ProjectSetup.mk RouterType.pages hasSrc hasPages)
  else none

/-- Capitalizes the first character, as the source's
`capitalizeFirstLetter` does (empty strings are returned unchanged). -/
def capitalizeFirstLetter (s : String) : String :=
  match s.data with
  | [] => s
  | c :: rest => ofChars (c.toUpper :: rest)

/-- The source's recurring `split(",").map(trim).filter(nonEmpty)`
pattern for comma-separated user input. -/
def splitTrim (s : String) : List String :=
  ((splitOnChar ',' s).map (fun n => trimChars n)).filter (fun n => n != "")

/-- The advisory comment `enhanceProject` prepends to every template it
materialises. -/
def advisory : String :=
  "// TODO: Change this file according to your exact requirement.\n\n"

/-- The fixed directory list per routing convention (`folderStructures`). -/
def folderStructures (base : String) : RouterType → List String
  | RouterType.app =>
      [base ++ "/components/ui", base ++ "/hooks", base ++ "/lib",
       base ++ "/services", base ++ "/styles", base ++ "/types",
       base ++ "/utils", base ++ "/app/api"]
  | RouterType.pages =>
      [base ++ "/pages/api", base ++ "/components/ui", base ++ "/hooks",
       base ++ "/lib", base ++ "/services", base ++ "/styles",
       base ++ "/types", base ++ "/utils"]

/-- The `lib` template table (key, template path) in iteration order. -/
def libTemplatePaths : List (String × String) :=
  [("api", "templates/lib/api.template.ts"),
   ("constants", "templates/lib/constants.template.ts")]

/-- The per-convention page template table (key, template path) in object
iteration order, with the already-processed `lib` entry skipped. -/
def pageTemplatePaths : RouterType → List (String × String)
  | RouterType.app =>
      [("layout", "templates/app/layout.template.tsx"),
       ("error", "templates/app/error.template.tsx"),
       ("page", "templates/app/page.template.tsx")]
  | RouterType.pages =>
      [("app", "templates/pages/_app.template.tsx"),
       ("error", "templates/pages/_error.template.tsx"),
       ("index", "templates/pages/index.template.tsx")]

/-- Destination path of a `lib` template file. -/
def libOutPath (base k : String) : String :=
  joinCwd (base ++ "/lib/" ++ k ++ ".ts")

/-- Destination path of a page template file. -/
def pageOutPath (rt : RouterType) (base k : String) : String :=
  joinCwd (base ++ "/" ++ (if rt = RouterType.app then "app" else "pages"))
    ++ "/" ++ k ++ ".tsx"

/-- First phase of `enhanceProject`: guarded creation of the fixed
directory list. -/
def enhanceDirs (rt : RouterType) (base : String) (fs : FS) : FS :=
  ensureDirsFold joinCwd (folderStructures base rt) fs

/-- Second phase of `enhanceProject`: guarded materialisation of the `lib`
templates.  `tpl` gives the content of a template path inside the
installed package. -/
def enhanceLibFiles (tpl : String → String) (base : String) (fs : FS) : FS :=
  ensureFilesFold (fun kv => libOutPath base kv.1)
    (fun kv => advisory ++ tpl kv.2) libTemplatePaths fs

/-- Third phase of `enhanceProject`: guarded materialisation of the page
templates. -/
def enhancePageFiles (tpl : String → String) (rt : RouterType) (base : String)
    (fs : FS) : FS :=
  ensureFilesFold (fun kv => pageOutPath rt base kv.1)
    (fun kv => advisory ++ tpl kv.2) (pageTemplatePaths rt) fs

/-- Model of `enhanceProject`: directories, then `lib` files, then page
files, in source order. -/
def enhanceProject (tpl : String → String) (rt : RouterType) (base : String)
    (fs : FS) : FS :=
  enhancePageFiles tpl rt base (enhanceLibFiles tpl base (enhanceDirs rt base fs))

/-- Exit status of the `add` command: the missing `package.json` branch
only `return`s (the process then terminates normally with status 0), while
`detectProjectSetup` calls `process.exit(1)`; every other path runs to
completion and exits 0. -/
def addCommandExit (fs : FS) : Nat :=
  if fs.pathExists "package.json" then
    match detectProjectSetup fs with
    | none => 1
    | some _ => 0
  else 0

/-- The default page stub written for a non-auth sub-route. -/
def defaultPageContent (route : String) : String :=
  "// TODO: Customize this " ++ route ++ " page\n\nexport default function "
    ++ capitalizeFirstLetter route ++ "Page() \x7b\n  return <div>"
    ++ capitalizeFirstLetter route ++ " Page</div>;\n\x7d"

/-- The request-handler stub generated under `--with-api`: 200 for POST,
405 otherwise. -/
def apiHandlerContent (route : String) : String :=
  "// API handler for " ++ route
    ++ "\n\nexport default function handler(req, res) \x7b\n  if (req.method === \"POST\") \x7b\n    res.status(200).json(\x7b message: \""
    ++ capitalizeFirstLetter route
    ++ " successful!\" \x7d);\n  \x7d else \x7b\n    res.status(405).json(\x7b error: \"Method not allowed\" \x7d);\n  \x7d\n\x7d"

/-- Semantics of the generated request-handler stub (`apiHandlerContent`):
the HTTP status it responds with for a given request method. -/
def generatedApiHandlerStatus (method : String) : Nat :=
  if method = "POST" then 200 else 405

/-- The Redux slice stub written by `add-module --with-redux`. -/
def moduleSliceContent (m : String) : String :=
  "import \x7b createSlice \x7d from \"@reduxjs/toolkit\";\n\nconst initialState = \x7b\x7d;\n\nconst "
    ++ m ++ "Slice = createSlice(\x7b\n  name: \"" ++ m
    ++ "\",\n  initialState,\n  reducers: \x7b\x7d,\n\x7d);\n\nexport const \x7b\x7d = "
    ++ m ++ "Slice.actions;\nexport default " ++ m ++ "Slice.reducer;\n"

/-- The packaged template path probed for an auth sub-route. -/
def authTemplatePath (rt : RouterType) (route : String) : String :=
  if rt = RouterType.app then
    "templates/app/(auth)/" ++ route ++ "/page.template.tsx"
  else
    "templates/pages/auth/" ++ route ++ "/page.template.tsx"

/-- The module folder path (`app/(name)` for the App Router, `pages/name`
for the Pages Router). -/
def moduleFolderPath (rt : RouterType) (base m : String) : String :=
  if rt = RouterType.app then base ++ "/app/(" ++ m ++ ")"
  else base ++ "/pages/" ++ m

/-- One iteration of the sub-route loop of `add-module`: guarded directory
creation, then an UNGUARDED `page.tsx` write (from the packaged template
for auth's `login`/`register` when that template exists, else the default
stub). -/
def writeSubRoute (pkgTpl : String → Option String) (rt : RouterType)
    (isAuth : Bool) (folderPath : String) (acc : FS) (route : String) : FS :=
  let routePath := folderPath ++ "/" ++ route
  let filePath := routePath ++ "/page.tsx"
  let acc1 := ensureDir acc (joinCwd routePath)
  if isAuth && (route == "login" || route == "register") then
    match pkgTpl (authTemplatePath rt route) with
    | some content => acc1.writeFile (joinCwd filePath) content
    | none => acc1
  else
    acc1.writeFile (joinCwd filePath) (defaultPageContent route)

/-- The `--with-api` branch of `add-module`.  Note the source passes these
paths to the filesystem verbatim, without `path.join(process.cwd(), ...)`. -/
def addModuleApi (base m : String) (rt : RouterType)
    (subRouteNames : List String) (fs : FS) : FS :=
  let apiDir := base ++ "/"
    ++ (if rt = RouterType.app then "app/api" else "pages/api") ++ "/" ++ m
  let fs1 := ensureDir fs apiDir
  ensureFilesFold (fun route => apiDir ++ "/" ++ route ++ ".ts")
    apiHandlerContent subRouteNames fs1

/-- The `--with-redux` branch of `add-module` (verbatim paths as well). -/
def addModuleRedux (base m : String) (fs : FS) : FS :=
  let sliceDir := base ++ "/store/slices"
  let fs1 := ensureDir fs sliceDir
  ensureFile fs1 (sliceDir ++ "/" ++ m ++ "Slice.ts") (moduleSliceContent m)

/-- The body of one `add-module` loop iteration, given the resolved
sub-route name list. -/
def addOneModuleWith (pkgTpl : String → Option String) (rt : RouterType)
    (base : String) (withApi withRedux : Bool) (m : String)
    (subRouteNames : List String) (fs : FS) : FS :=
  if subRouteNames = [] then fs
  else
    let folderPath := moduleFolderPath rt base m
    let isAuth := lowerStr m == "auth"
    let fs1 := ensureDir fs (joinCwd folderPath)
    let fs2 := subRouteNames.foldl (writeSubRoute pkgTpl rt isAuth folderPath) fs1
    let fs3 := if withApi then addModuleApi base m rt subRouteNames fs2 else fs2
    if withRedux then addModuleRedux base m fs3 else fs3

/-- Sub-route name resolution: the reserved `auth` module (matched
case-insensitively) always uses `login` and `register`; any other module
splits the user's comma-separated answer. -/
def subRouteNamesFor (m input : String) : List String :=
  if lowerStr m = "auth" then ["login", "register"] else splitTrim input

/-- One `add-module` loop iteration from the raw prompt answer. -/
def addOneModule (pkgTpl : String → Option String) (rt : RouterType)
    (base : String) (withApi withRedux : Bool) (m input : String) (fs : FS) : FS :=
  addOneModuleWith pkgTpl rt base withApi withRedux m (subRouteNamesFor m input) fs

/-- Model of the `add-module` command: detection (fatal on failure), then
one iteration per comma-separated module name.  `subAnswers` gives the
user's sub-route answer for each module name prompted. -/
def addModuleAction (pkgTpl : String → Option String) (withApi withRedux : Bool)
    (moduleNames : String) (subAnswers : String → String) (fs : FS) : Option FS :=
  match detectProjectSetup fs with
  | none => none
  | some setup =>
    let base := if setup.hasSrc then "src" else ""
    some ((splitTrim moduleNames).foldl
      (fun acc m =>
        addOneModule pkgTpl setup.routerType base withApi withRedux m
          (subAnswers m) acc) fs)

/-- The initial `store/index.ts` content written when the file is absent. -/
def initialStoreContent : String :=
  "// Redux store setup\nimport \x7b configureStore \x7d from \x27@reduxjs/toolkit\x27;\n\nexport const store = configureStore(\x7b\n  reducer: \x7b\x7d,\n\x7d);\n"

/-- The default `generalSlice.ts` content. -/
def generalSliceContent : String :=
  "import \x7b createSlice \x7d from \"@reduxjs/toolkit\";\nimport \x7b GeneralState \x7d from \"../../types/general\";\n\nconst initialState: GeneralState = \x7b\n  data: null,\n\x7d;\n\nconst generalSlice = createSlice(\x7b\n  name: \"general\",\n  initialState,\n  reducers: \x7b\x7d,\n\x7d);\n\nexport const \x7b actions, reducer \x7d = generalSlice;\nexport default reducer;\n"

/-- The default `general.d.ts` content. -/
def generalTypeContent : String :=
  "export interface GeneralState \x7b\n  data: any;\n\x7d"

/-- The content of an additional slice file for a named slice. -/
def sliceFileContent (s : String) : String :=
  "import \x7b createSlice \x7d from \"@reduxjs/toolkit\";\nimport \x7b "
    ++ capitalizeFirstLetter s ++ "State \x7d from \"../../types/" ++ s
    ++ "\";\n\nconst initialState: " ++ capitalizeFirstLetter s
    ++ "State = \x7b\n  data: null,\n\x7d;\n\nconst " ++ s
    ++ "Slice = createSlice(\x7b\n  name: \"" ++ s
    ++ "\",\n  initialState,\n  reducers: \x7b\x7d,\n\x7d);\n\nexport const \x7b actions, reducer \x7d = "
    ++ s ++ "Slice;\nexport default reducer;\n"

/-- The content of an additional slice's type declaration file. -/
def typeFileContent (s : String) : String :=
  "export interface " ++ capitalizeFirstLetter s ++ "State \x7b\n  data: any;\n\x7d"

/-- The aggregator's import lines: the general slice plus this
invocation's additional slices. -/
def reducerImports (adds : List String) : String :=
  joinWith "\n"
    ("import generalReducer from \x27./slices/generalSlice\x27;"
      :: adds.map (fun s => "import " ++ s ++ "Reducer from \x27./slices/" ++ s ++ "Slice\x27;"))

/-- The aggregator's reducer-mapping lines. -/
def reducerMapping (adds : List String) : String :=
  joinWith "\n"
    ("  general: generalReducer," :: adds.map (fun s => "  " ++ s ++ ": " ++ s ++ "Reducer,"))

/-- The rewritten `store/index.ts` content, built only from this
invocation's additional slice names. -/
def storeContent (adds : List String) : String :=
  "// Redux store setup\nimport \x7b configureStore \x7d from \x27@reduxjs/toolkit\x27;\n\n"
    ++ reducerImports adds
    ++ "\n\nexport const store = configureStore(\x7b\n  reducer: \x7b\n"
    ++ reducerMapping adds ++ "\n  \x7d,\n\x7d);\n"

/-- The store directory `setupRedux` works under. -/
def reduxStoreDir (base : String) : String := joinCwd (base ++ "/store")

/-- The slices directory (`path.join(storeDir, "slices")`). -/
def reduxSliceDir (base : String) : String := reduxStoreDir base ++ "/slices"

/-- The types directory. -/
def reduxTypesDir (base : String) : String := joinCwd (base ++ "/types")

/-- The aggregator file path `store/index.ts`. -/
def reduxStorePath (base : String) : String := reduxStoreDir base ++ "/index.ts"

/-- First phase of `setupRedux`: guarded creation of the three
directories. -/
def setupReduxDirs (base : String) (fs : FS) : FS :=
  ensureDirsFold (fun d => d)
    [reduxStoreDir base, reduxSliceDir base, reduxTypesDir base] fs

/-- Second phase of `setupRedux`: guarded creation of the initial
aggregator, the general slice and its type file. -/
def setupReduxDefaults (base : String) (fs : FS) : FS :=
  ensureFile
    (ensureFile (ensureFile fs (reduxStorePath base) initialStoreContent)
      (reduxSliceDir base ++ "/generalSlice.ts") generalSliceContent)
    (reduxTypesDir base ++ "/general.d.ts") generalTypeContent

/-- Third phase of `setupRedux`: guarded creation of one slice file and
one type file per additional slice name. -/
def setupReduxSlices (base : String) (adds : List String) (fs : FS) : FS :=
  ensureFile2Fold (fun s => reduxSliceDir base ++ "/" ++ s ++ "Slice.ts")
    sliceFileContent (fun s => reduxTypesDir base ++ "/" ++ s ++ ".d.ts")
    typeFileContent adds fs

/-- Model of `setupRedux`: ensure directories, the initial store file and
the general slice exist, create the requested additional slices, then
UNCONDITIONALLY rewrite `store/index.ts` from this invocation's names
only. -/
def setupRedux (sliceNamesInput base : String) (fs : FS) : FS :=
  (setupReduxSlices base (splitTrim sliceNamesInput)
      (setupReduxDefaults base (setupReduxDirs base fs))).writeFile
    (reduxStorePath base) (storeContent (splitTrim sliceNamesInput))

/-- Model of the `add-redux` command: detection (fatal on failure) then
`setupRedux` with the detected base folder. -/
def addReduxAction (sliceNamesInput : String) (fs : FS) : Option FS :=
  match detectProjectSetup fs with
  | none => none
  | some setup => some (setupRedux sliceNamesInput (if setup.hasSrc then "src" else "") fs)

/-- The header line written when an environment file is created. -/
def envHeader (t : String) : String :=
  "# " ++ t ++ " Environment Variables\n"

/-- The appended variable block: each comma-separated entry trimmed and
given its own line. -/
def formatVars (s : String) : String :=
  String.join (((splitOnChar ',' s).map (fun v => trimChars v)).map (fun v => v ++ "\n"))

/-- Model of the `add-env` command.  `envType` is the menu choice value
(`\x27custom\x27` for a custom file), `envFile` the target file name,
`shouldAppend` the user's answer when the file already exists. -/
def addEnvAction (envType envFile : String) (shouldAppend : Bool)
    (envVariables : String) (fs : FS) : FS :=
  if fs.pathExists (joinCwd envFile) then
    if shouldAppend = false then fs
    else fs.appendFile (joinCwd envFile) (formatVars envVariables)
  else
    (fs.writeFile (joinCwd envFile) (envHeader envType)).appendFile
      (joinCwd envFile) (formatVars envVariables)

/-- Modelled from the spec: the packaged template store for the reserved
`auth` module.  The four auth page template files ship with the installed
package but are outside the scaffolding source, and the spec places
template text out of scope, so representative contents stand in for the
real file bodies; only their identity per path matters here. -/
def packagedAuthTemplates : String → Option String := fun p =>
  if p = "templates/app/(auth)/login/page.template.tsx" then some "LOGIN_TEMPLATE"
  else if p = "templates/app/(auth)/register/page.template.tsx" then some "REGISTER_TEMPLATE"
  else if p = "templates/pages/auth/login/page.template.tsx" then some "PAGES_LOGIN_TEMPLATE"
  else if p = "templates/pages/auth/register/page.template.tsx" then some "PAGES_REGISTER_TEMPLATE"
  else none

theorem FS.hasFile_mkdirp (fs : FS) (p q : String) :
    (fs.mkdirp p).hasFile q = fs.hasFile q := rfl

theorem FS.readFile_mkdirp (fs : FS) (p q : String) :
    (fs.mkdirp p).readFile q = fs.readFile q := rfl

theorem FS.hasDir_writeFile (fs : FS) (p c q : String) :
    (fs.writeFile p c).hasDir q = fs.hasDir q := rfl

theorem FS.hasDir_mkdirp_self (fs : FS) (p : String) :
    (fs.mkdirp p).hasDir p = true := by
  unfold FS.mkdirp FS.hasDir
  simp only [List.any_append, Bool.or_eq_true]
  by_cases h : fs.dirs.any (fun q => q == p) = true
  · exact Or.inl h
  · refine Or.inr (List.any_eq_true.mpr ⟨p, ?_, by simp⟩)
    refine List.mem_filter.mpr ⟨by simp, ?_⟩
    simp only [FS.hasDir, h]
    simp [h]

theorem FS.hasDir_mono_mkdirp (fs : FS) (p q : String)
    (h : fs.hasDir q = true) : (fs.mkdirp p).hasDir q = true := by
  unfold FS.hasDir at h
  unfold FS.mkdirp FS.hasDir
  simp only [List.any_append, Bool.or_eq_true]
  exact Or.inl h

theorem FS.pathExists_mkdirp_self (fs : FS) (p : String) :
    (fs.mkdirp p).pathExists p = true := by
  unfold FS.pathExists
  simp only [Bool.or_eq_true]
  exact Or.inl (FS.hasDir_mkdirp_self fs p)

theorem FS.pathExists_mono_mkdirp (fs : FS) (p q : String)
    (h : fs.pathExists q = true) : (fs.mkdirp p).pathExists q = true := by
  unfold FS.pathExists at h ⊢
  simp only [Bool.or_eq_true] at h ⊢
  cases h with
  | inl h => exact Or.inl (FS.hasDir_mono_mkdirp fs p q h)
  | inr h => exact Or.inr (by rw [FS.hasFile_mkdirp]; exact h)

theorem FS.hasFile_writeFile_self (fs : FS) (p c : String) :
    (fs.writeFile p c).hasFile p = true := by
  unfold FS.writeFile FS.hasFile
  simp

theorem FS.hasFile_mono_writeFile (fs : FS) (p c q : String)
    (h : fs.hasFile q = true) : (fs.writeFile p c).hasFile q = true := by
  unfold FS.hasFile at h
  rcases List.any_eq_true.mp h with ⟨e, he, hq⟩
  have hq' : e.1 = q := by simpa using hq
  by_cases hpq : p = q
  · subst hpq
    exact FS.hasFile_writeFile_self fs p c
  · unfold FS.writeFile FS.hasFile
    refine List.any_eq_true.mpr ⟨e, ?_, hq⟩
    refine List.mem_cons_of_mem _ (List.mem_filter.mpr ⟨he, ?_⟩)
    simp only [hq', Bool.not_eq_eq_eq_not, Bool.not_true, beq_eq_false_iff_ne, ne_eq]
    exact fun hc => hpq hc.symm

theorem FS.pathExists_writeFile_self (fs : FS) (p c : String) :
    (fs.writeFile p c).pathExists p = true := by
  unfold FS.pathExists
  simp only [Bool.or_eq_true]
  exact Or.inr (FS.hasFile_writeFile_self fs p c)

theorem FS.pathExists_mono_writeFile (fs : FS) (p c q : String)
    (h : fs.pathExists q = true) : (fs.writeFile p c).pathExists q = true := by
  unfold FS.pathExists at h ⊢
  simp only [Bool.or_eq_true] at h ⊢
  cases h with
  | inl h => exact Or.inl (by rw [FS.hasDir_writeFile]; exact h)
  | inr h => exact Or.inr (FS.hasFile_mono_writeFile fs p c q h)

theorem FS.pathExists_of_readFile (fs : FS) (p c : String)
    (h : fs.readFile p = some c) : fs.pathExists p = true := by
  unfold FS.readFile at h
  cases hf : fs.files.find? (fun e => e.1 == p) with
  | none => rw [hf] at h; simp at h
  | some e =>
    unfold FS.pathExists FS.hasFile
    simp only [Bool.or_eq_true]
    have hpred := List.find?_some hf
    exact Or.inr (List.any_eq_true.mpr ⟨e, List.mem_of_find?_eq_some hf, hpred⟩)

theorem FS.readFile_writeFile_self (fs : FS) (p c : String) :
    (fs.writeFile p c).readFile p = some c := by
  unfold FS.writeFile FS.readFile
  rw [List.find?_cons_of_pos _ (by simp)]
  rfl

theorem find_skip_filter (l : List (String × String)) (p q : String)
    (hne : q ≠ p) :
    (l.filter (fun e => !(e.1 == p))).find? (fun e => e.1 == q) =
      l.find? (fun e => e.1 == q) := by
  induction l with
  | nil => rfl
  | cons e l ih =>
    by_cases hp : e.1 = p
    · have h1 : (!(e.1 == p)) = false := by simp [hp]
      have h2 : (e.1 == q) = false := by
        simp only [beq_eq_false_iff_ne, ne_eq, hp]
        exact fun hc => hne hc.symm
      rw [List.filter_cons_of_neg (by simp [h1]), List.find?_cons_of_neg _ (by simp [h2])]
      exact ih
    · have h1 : (!(e.1 == p)) = true := by simp [hp]
      by_cases hq : e.1 = q
      · rw [List.filter_cons_of_pos (by simp [h1]),
          List.find?_cons_of_pos _ (by simp [hq]), List.find?_cons_of_pos _ (by simp [hq])]
      · rw [List.filter_cons_of_pos (by simp [h1]),
          List.find?_cons_of_neg _ (by simp [hq]), List.find?_cons_of_neg _ (by simp [hq])]
        exact ih

theorem FS.readFile_writeFile_other (fs : FS) (p c q : String)
    (hne : q ≠ p) : (fs.writeFile p c).readFile q = fs.readFile q := by
  unfold FS.writeFile FS.readFile
  have hpq : ((p, c).1 == q) = false := by
    simp only [beq_eq_false_iff_ne, ne_eq]
    exact fun hc => hne hc.symm
  rw [List.find?_cons]
  simp [hpq, find_skip_filter fs.files p q hne]

theorem ensureDir_pathExists_self (fs : FS) (p : String) :
    (ensureDir fs p).pathExists p = true := by
  unfold ensureDir
  split
  · assumption
  · exact FS.pathExists_mkdirp_self fs p

theorem ensureDir_pathExists_mono (fs : FS) (p q : String)
    (h : fs.pathExists q = true) : (ensureDir fs p).pathExists q = true := by
  unfold ensureDir
  split
  · exact h
  · exact FS.pathExists_mono_mkdirp fs p q h

theorem ensureDir_of_exists (fs : FS) (p : String)
    (h : fs.pathExists p = true) : ensureDir fs p = fs := by
  unfold ensureDir
  simp [h]

theorem ensureDir_readFile (fs : FS) (p q : String) :
    (ensureDir fs p).readFile q = fs.readFile q := by
  unfold ensureDir
  split
  · rfl
  · exact FS.readFile_mkdirp fs p q

theorem ensureFile_pathExists_self (fs : FS) (p c : String) :
    (ensureFile fs p c).pathExists p = true := by
  unfold ensureFile
  split
  · assumption
  · exact FS.pathExists_writeFile_self fs p c

theorem ensureFile_pathExists_mono (fs : FS) (p c q : String)
    (h : fs.pathExists q = true) : (ensureFile fs p c).pathExists q = true := by
  unfold ensureFile
  split
  · exact h
  · exact FS.pathExists_mono_writeFile fs p c q h

theorem ensureFile_of_exists (fs : FS) (p c : String)
    (h : fs.pathExists p = true) : ensureFile fs p c = fs := by
  unfold ensureFile
  simp [h]

theorem ensureFile_readFile_pres (fs : FS) (q d p c : String)
    (h : fs.readFile p = some c) : (ensureFile fs q d).readFile p = some c := by
  unfold ensureFile
  split
  · exact h
  · rename_i hq
    have hpq : p ≠ q := by
      intro he
      subst he
      exact hq (FS.pathExists_of_readFile fs p c h)
    rw [FS.readFile_writeFile_other fs q d p hpq]
    exact h

theorem foldl_pres_prop {α : Type} (step : FS → α → FS) (P : FS → Prop)
    (hstep : ∀ fs x, P fs → P (step fs x)) (l : List α) :
    ∀ fs : FS, P fs → P (l.foldl step fs) := by
  induction l with
  | nil => intro fs h; exact h
  | cons x xs ih => intro fs h; exact ih (step fs x) (hstep fs x h)

theorem foldl_covers_prop {α : Type} (step : FS → α → FS) (P : α → FS → Prop)
    (hself : ∀ fs x, P x (step fs x))
    (hpres : ∀ fs x y, P y fs → P y (step fs x)) (l : List α) :
    ∀ (fs : FS) (x : α), x ∈ l → P x (l.foldl step fs) := by
  induction l with
  | nil => intro fs x hx; cases hx
  | cons a xs ih =>
    intro fs x hx
    cases hx with
    | head =>
      exact foldl_pres_prop step (P a) (fun fs y h => hpres fs y a h) xs
        (step fs a) (hself fs a)
    | tail _ hmem => exact ih (step fs a) x hmem

theorem foldl_fixed {α : Type} (step : FS → α → FS) (l : List α) (fs : FS)
    (h : ∀ x ∈ l, step fs x = fs) : l.foldl step fs = fs := by
  induction l with
  | nil => rfl
  | cons a xs ih =>
    rw [List.foldl_cons, h a (by simp)]
    exact ih (fun x hx => h x (by simp [hx]))



theorem ensureDirsFold_covers {α : Type} (key : α → String) (l : List α)
    (fs : FS) (x : α) (hx : x ∈ l) :
    (ensureDirsFold key l fs).pathExists (key x) = true :=
  foldl_covers_prop (fun acc v => ensureDir acc (key v))
    (fun v fsx => fsx.pathExists (key v) = true)
    (fun fsx v => ensureDir_pathExists_self fsx (key v))
    (fun fsx v w h => ensureDir_pathExists_mono fsx (key v) (key w) h) l fs x hx

theorem ensureDirsFold_mono {α : Type} (key : α → String) (l : List α)
    (fs : FS) (p : String) (h : fs.pathExists p = true) :
    (ensureDirsFold key l fs).pathExists p = true :=
  foldl_pres_prop (fun acc v => ensureDir acc (key v))
    (fun fsx => fsx.pathExists p = true)
    (fun fsx v hv => ensureDir_pathExists_mono fsx (key v) p hv) l fs h

theorem ensureDirsFold_fixed {α : Type} (key : α → String) (l : List α)
    (fs : FS) (h : ∀ x ∈ l, fs.pathExists (key x) = true) :
    ensureDirsFold key l fs = fs :=
  foldl_fixed _ l fs (fun x hx => ensureDir_of_exists fs (key x) (h x hx))

theorem ensureDirsFold_readFile_pres {α : Type} (key : α → String) (l : List α)
    (fs : FS) (p c : String) (h : fs.readFile p = some c) :
    (ensureDirsFold key l fs).readFile p = some c :=
  foldl_pres_prop (fun acc v => ensureDir acc (key v))
    (fun fsx => fsx.readFile p = some c)
    (fun fsx v hv => by
      show (ensureDir fsx (key v)).readFile p = some c
      rw [ensureDir_readFile]
      exact hv) l fs h

theorem ensureFilesFold_covers {α : Type} (key cnt : α → String) (l : List α)
    (fs : FS) (x : α) (hx : x ∈ l) :
    (ensureFilesFold key cnt l fs).pathExists (key x) = true :=
  foldl_covers_prop (fun acc v => ensureFile acc (key v) (cnt v))
    (fun v fsx => fsx.pathExists (key v) = true)
    (fun fsx v => ensureFile_pathExists_self fsx (key v) (cnt v))
    (fun fsx v w h => ensureFile_pathExists_mono fsx (key v) (cnt v) (key w) h) l fs x hx

theorem ensureFilesFold_mono {α : Type} (key cnt : α → String) (l : List α)
    (fs : FS) (p : String) (h : fs.pathExists p = true) :
    (ensureFilesFold key cnt l fs).pathExists p = true :=
  foldl_pres_prop (fun acc v => ensureFile acc (key v) (cnt v))
    (fun fsx => fsx.pathExists p = true)
    (fun fsx v hv => ensureFile_pathExists_mono fsx (key v) (cnt v) p hv) l fs h

theorem ensureFilesFold_fixed {α : Type} (key cnt : α → String) (l : List α)
    (fs : FS) (h : ∀ x ∈ l, fs.pathExists (key x) = true) :
    ensureFilesFold key cnt l fs = fs :=
  foldl_fixed _ l fs (fun x hx => ensureFile_of_exists fs (key x) (cnt x) (h x hx))

theorem ensureFilesFold_readFile_pres {α : Type} (key cnt : α → String)
    (l : List α) (fs : FS) (p c : String) (h : fs.readFile p = some c) :
    (ensureFilesFold key cnt l fs).readFile p = some c :=
  foldl_pres_prop (fun acc v => ensureFile acc (key v) (cnt v))
    (fun fsx => fsx.readFile p = some c)
    (fun fsx v hv => ensureFile_readFile_pres fsx (key v) (cnt v) p c hv) l fs h

theorem ensureFile2Fold_covers1 {α : Type} (key1 cnt1 key2 cnt2 : α → String)
    (l : List α) (fs : FS) (x : α) (hx : x ∈ l) :
    (ensureFile2Fold key1 cnt1 key2 cnt2 l fs).pathExists (key1 x) = true :=
  foldl_covers_prop
    (fun acc v => ensureFile (ensureFile acc (key1 v) (cnt1 v)) (key2 v) (cnt2 v))
    (fun v fsx => fsx.pathExists (key1 v) = true)
    (fun fsx v =>
      ensureFile_pathExists_mono _ (key2 v) (cnt2 v) (key1 v)
        (ensureFile_pathExists_self fsx (key1 v) (cnt1 v)))
    (fun fsx v w h =>
      ensureFile_pathExists_mono _ (key2 v) (cnt2 v) (key1 w)
        (ensureFile_pathExists_mono fsx (key1 v) (cnt1 v) (key1 w) h)) l fs x hx

theorem ensureFile2Fold_mono {α : Type} (key1 cnt1 key2 cnt2 : α → String)
    (l : List α) (fs : FS) (p : String) (h : fs.pathExists p = true) :
    (ensureFile2Fold key1 cnt1 key2 cnt2 l fs).pathExists p = true :=
  foldl_pres_prop
    (fun acc v => ensureFile (ensureFile acc (key1 v) (cnt1 v)) (key2 v) (cnt2 v))
    (fun fsx => fsx.pathExists p = true)
    (fun fsx v hv =>
      ensureFile_pathExists_mono _ (key2 v) (cnt2 v) p
        (ensureFile_pathExists_mono fsx (key1 v) (cnt1 v) p hv)) l fs h



/-- Claim C2 (confirmed): for every routing convention, base folder,
template contents and starting filesystem state, running the base scaffold
`enhanceProject` twice with the same configuration yields exactly the
state left by the first run — the second run creates no directory and
writes no file. -/
theorem enhanceProject_idempotent (tpl : String → String) (rt : RouterType)
    (base : String) (fs : FS) :
    enhanceProject tpl rt base (enhanceProject tpl rt base fs) =
      enhanceProject tpl rt base fs := by
  have hdirs : ∀ folder ∈ folderStructures base rt,
      (enhanceProject tpl rt base fs).pathExists (joinCwd folder) = true := by
    intro folder hmem
    have h1 := ensureDirsFold_covers joinCwd (folderStructures base rt) fs folder hmem
    have h2 := ensureFilesFold_mono (fun kv : String × String => libOutPath base kv.1)
      (fun kv : String × String => advisory ++ tpl kv.2) libTemplatePaths _ _ h1
    have h3 := ensureFilesFold_mono (fun kv : String × String => pageOutPath rt base kv.1)
      (fun kv : String × String => advisory ++ tpl kv.2) (pageTemplatePaths rt) _ _ h2
    exact h3
  have hlib : ∀ kv ∈ libTemplatePaths,
      (enhanceProject tpl rt base fs).pathExists (libOutPath base kv.1) = true := by
    intro kv hmem
    have h1 := ensureFilesFold_covers (fun kv : String × String => libOutPath base kv.1)
      (fun kv : String × String => advisory ++ tpl kv.2) libTemplatePaths
      (enhanceDirs rt base fs) kv hmem
    have h2 := ensureFilesFold_mono (fun kv : String × String => pageOutPath rt base kv.1)
      (fun kv : String × String => advisory ++ tpl kv.2) (pageTemplatePaths rt) _ _ h1
    exact h2
  have hpage : ∀ kv ∈ pageTemplatePaths rt,
      (enhanceProject tpl rt base fs).pathExists (pageOutPath rt base kv.1) = true := by
    intro kv hmem
    have h1 := ensureFilesFold_covers (fun kv : String × String => pageOutPath rt base kv.1)
      (fun kv : String × String => advisory ++ tpl kv.2) (pageTemplatePaths rt)
      (enhanceLibFiles tpl base (enhanceDirs rt base fs)) kv hmem
    exact h1
  have s1 := ensureDirsFold_fixed joinCwd (folderStructures base rt)
    (enhanceProject tpl rt base fs) hdirs
  have s2 := ensureFilesFold_fixed (fun kv : String × String => libOutPath base kv.1)
    (fun kv : String × String => advisory ++ tpl kv.2) libTemplatePaths
    (enhanceProject tpl rt base fs) hlib
  have s3 := ensureFilesFold_fixed (fun kv : String × String => pageOutPath rt base kv.1)
    (fun kv : String × String => advisory ++ tpl kv.2) (pageTemplatePaths rt)
    (enhanceProject tpl rt base fs) hpage
  have e1 : enhanceDirs rt base (enhanceProject tpl rt base fs) =
      enhanceProject tpl rt base fs := s1
  have e2 : enhanceLibFiles tpl base (enhanceProject tpl rt base fs) =
      enhanceProject tpl rt base fs := s2
  have e3 : enhancePageFiles tpl rt base (enhanceProject tpl rt base fs) =
      enhanceProject tpl rt base fs := s3
  calc enhanceProject tpl rt base (enhanceProject tpl rt base fs)
      = enhancePageFiles tpl rt base (enhanceLibFiles tpl base
          (enhanceDirs rt base (enhanceProject tpl rt base fs))) := rfl
    _ = enhanceProject tpl rt base fs := by rw [e1, e2, e3]

/-- Claim C1 (amended, corrected): the base scaffold's materialisation is
guarded by an existence check and never overwrites — any file present
before `enhanceProject` runs has identical contents afterwards.  (The
original claim fails for `add-module`, whose sub-route `page.tsx` writes
are unguarded; see the counterexample theorem.) -/
theorem enhanceProject_preserves_existing (tpl : String → String)
    (rt : RouterType) (base p c : String) (fs : FS)
    (h : fs.readFile p = some c) :
    (enhanceProject tpl rt base fs).readFile p = some c := by
  have h1 := ensureDirsFold_readFile_pres joinCwd (folderStructures base rt) fs p c h
  have h2 := ensureFilesFold_readFile_pres (fun kv : String × String => libOutPath base kv.1)
    (fun kv : String × String => advisory ++ tpl kv.2) libTemplatePaths _ p c h1
  have h3 := ensureFilesFold_readFile_pres (fun kv : String × String => pageOutPath rt base kv.1)
    (fun kv : String × String => advisory ++ tpl kv.2) (pageTemplatePaths rt) _ p c h2
  exact h3

/-- Witness for the amended C1 theorem at a concrete state: a pre-existing
file keeps its contents across `enhanceProject`. -/
theorem enhanceProject_preserves_existing_witness :
    FS.readFile (FS.mk [] [("x.txt", "KEEP")]) "x.txt" = some "KEEP" ∧
      (enhanceProject (fun _ => "T") RouterType.app "" (FS.mk [] [("x.txt", "KEEP")])).readFile
          "x.txt" = some "KEEP" :=
  ⟨by decide,
    enhanceProject_preserves_existing (fun _ => "T") RouterType.app "" "x.txt" "KEEP"
      (FS.mk [] [("x.txt", "KEEP")]) (by decide)⟩

/-- Claim C3 (confirmed): with only the App-style marker present the
detector returns the App Router convention; with only the Pages-style
marker, the Pages Router convention; with neither, it fails fatally
(modelled by `none`, the `process.exit(1)` branch) instead of returning a
`ProjectSetup`. -/
theorem detect_marker_cases (fs : FS) :
    (fs.pathExists (appMarker fs) = true → fs.pathExists (pagesMarker fs) = false →
      ∃ s, detectProjectSetup fs = some s ∧ s.routerType = RouterType.app) ∧
    (fs.pathExists (appMarker fs) = false → fs.pathExists (pagesMarker fs) = true →
      ∃ s, detectProjectSetup fs = some s ∧ s.routerType = RouterType.pages) ∧
    (fs.pathExists (appMarker fs) = false → fs.pathExists (pagesMarker fs) = false →
      detectProjectSetup fs = none) := by
  refine ⟨fun h1 h2 => ?_, fun h1 h2 => ?_, fun h1 h2 => ?_⟩
  · refine ⟨ProjectSetup.mk RouterType.app (fs.pathExists "src")
      (fs.pathExists (pagesMarker fs)), ?_, rfl⟩
    simp [detectProjectSetup, h1]
  · refine ⟨ProjectSetup.mk RouterType.pages (fs.pathExists "src")
      (fs.pathExists (pagesMarker fs)), ?_, rfl⟩
    simp [detectProjectSetup, h1, h2]
  · simp [detectProjectSetup, h1, h2]

/-- Witness for C3 at a concrete root holding only an `app` directory. -/
theorem detect_marker_cases_witness :
    ∃ s, detectProjectSetup (FS.mk ["app"] []) = some s ∧
      s.routerType = RouterType.app :=
  (detect_marker_cases (FS.mk ["app"] [])).1 (by decide) (by decide)

/-- Claim C4 (confirmed): whenever both marker directories exist, the
detector deterministically returns the App Router convention — the
App-style check comes first and wins the tie. -/
theorem detect_both_markers_app (fs : FS)
    (h1 : fs.pathExists (appMarker fs) = true)
    (h2 : fs.pathExists (pagesMarker fs) = true) :
    ∃ s, detectProjectSetup fs = some s ∧ s.routerType = RouterType.app := by
  refine ⟨ProjectSetup.mk RouterType.app (fs.pathExists "src")
    (fs.pathExists (pagesMarker fs)), ?_, rfl⟩
  simp [detectProjectSetup, h1]

/-- Witness for C4 at a root holding both `app` and `pages`. -/
theorem detect_both_markers_app_witness :
    ∃ s, detectProjectSetup (FS.mk ["app", "pages"] []) = some s ∧
      s.routerType = RouterType.app :=
  detect_both_markers_app (FS.mk ["app", "pages"] []) (by decide) (by decide)

/-- Claim C10 (confirmed): when `src` exists the detector probes only
`src/app` and `src/pages`; root-level `app` or `pages` directories are
ignored, so detection fails fatally even though a marker exists at the
root. -/
theorem detect_ignores_root_markers_when_src (fs : FS)
    (hs : fs.pathExists "src" = true)
    (hroot : fs.pathExists "app" = true ∨ fs.pathExists "pages" = true)
    (h1 : fs.pathExists "src/app" = false)
    (h2 : fs.pathExists "src/pages" = false) :
    appMarker fs = "src/app" ∧ pagesMarker fs = "src/pages" ∧
      detectProjectSetup fs = none := by
  refine ⟨by simp [appMarker, hs], by simp [pagesMarker, hs], ?_⟩
  simp [detectProjectSetup, appMarker, pagesMarker, hs, h1, h2]

/-- Witness for C10: `src` plus a root-level `app` directory alone makes
detection fail. -/
theorem detect_ignores_root_markers_when_src_witness :
    detectProjectSetup (FS.mk ["src", "app"] []) = none :=
  (detect_ignores_root_markers_when_src (FS.mk ["src", "app"] []) (by decide)
    (Or.inl (by decide)) (by decide) (by decide)).2.2

/-- Claim C5 counterexample: with no `package.json` the `add` command only
prints an error and returns, so the process terminates with exit status 0
— not the non-zero status the claim asserts for that case. -/
theorem addCommand_missing_manifest_exits_zero :
    (FS.mk [] []).pathExists "package.json" = false ∧
      addCommandExit (FS.mk [] []) = 0 := by decide

/-- Claim C5 (amended, corrected): the `add` command's exit status is
non-zero exactly when the manifest file exists and no routing convention
is found (the detector's fatal `process.exit(1)`); the
missing-`package.json` branch and every other condition terminate with
status 0. -/
theorem addCommandExit_nonzero_iff (fs : FS) :
    addCommandExit fs ≠ 0 ↔
      fs.pathExists "package.json" = true ∧ detectProjectSetup fs = none := by
  unfold addCommandExit
  by_cases hp : fs.pathExists "package.json" = true
  · rw [if_pos hp]
    cases hd : detectProjectSetup fs <;> simp [hd, hp]
  · rw [if_neg hp]
    simp [hp]

/-- Witness for the amended C5 theorem: a manifest with no routing
convention exits non-zero. -/
theorem addCommandExit_nonzero_iff_witness :
    addCommandExit (FS.mk [] [("package.json", "\x7b\x7d")]) ≠ 0 :=
  (addCommandExit_nonzero_iff (FS.mk [] [("package.json", "\x7b\x7d")])).mpr
    ⟨by decide, by decide⟩

/-- Claim C1 counterexample: `add-module` writes each sub-route `page.tsx`
without any existence check, so a pre-existing destination file is
overwritten even though the command completes normally. -/
theorem addModule_overwrites_existing_page :
    (FS.mk ["app", "app/(blog)", "app/(blog)/post"]
        [("app/(blog)/post/page.tsx", "ORIGINAL")]).readFile
      "app/(blog)/post/page.tsx" = some "ORIGINAL" ∧
    (addModuleAction packagedAuthTemplates false false "blog" (fun _ => "post")
        (FS.mk ["app", "app/(blog)", "app/(blog)/post"]
          [("app/(blog)/post/page.tsx", "ORIGINAL")])).isSome = true ∧
    ((addModuleAction packagedAuthTemplates false false "blog" (fun _ => "post")
        (FS.mk ["app", "app/(blog)", "app/(blog)/post"]
          [("app/(blog)/post/page.tsx", "ORIGINAL")])).bind
      (fun f => f.readFile "app/(blog)/post/page.tsx")) ≠ some "ORIGINAL" := by
  decide

theorem subRouteNamesFor_auth (input : String) :
    subRouteNamesFor "auth" input = ["login", "register"] := by
  unfold subRouteNamesFor
  exact if_pos (by decide)

/-- Claim C6 (confirmed): `add-module` with the reserved name `auth`
(matched case-insensitively) ignores whatever sub-route names the user
supplies and produces exactly the two sub-route directories `login` and
`register`, whose page files are taken from the fixed packaged
templates. -/
theorem addModule_auth_fixed_subroutes :
    (∀ (pkgTpl : String → Option String) (wA wR : Bool) (a b : String → String) (fs : FS),
      addModuleAction pkgTpl wA wR "auth" a fs =
        addModuleAction pkgTpl wA wR "auth" b fs) ∧
    addModuleAction packagedAuthTemplates false false "auth"
        (fun _ => "profile, settings") (FS.mk ["app"] []) =
      some (FS.mk ["app", "app/(auth)", "app/(auth)/login", "app/(auth)/register"]
        [("app/(auth)/register/page.tsx", "REGISTER_TEMPLATE"),
         ("app/(auth)/login/page.tsx", "LOGIN_TEMPLATE")]) ∧
    addModuleAction packagedAuthTemplates false false "Auth" (fun _ => "x")
        (FS.mk ["app"] []) =
      some (FS.mk ["app", "app/(Auth)", "app/(Auth)/login", "app/(Auth)/register"]
        [("app/(Auth)/register/page.tsx", "REGISTER_TEMPLATE"),
         ("app/(Auth)/login/page.tsx", "LOGIN_TEMPLATE")]) := by
  refine ⟨?_, by decide, by decide⟩
  intro pkgTpl wA wR a b fs
  unfold addModuleAction
  cases detectProjectSetup fs with
  | none => rfl
  | some setup =>
    have hm : splitTrim "auth" = ["auth"] := by decide
    simp only [hm, List.foldl_cons, List.foldl_nil]
    unfold addOneModule
    rw [subRouteNamesFor_auth (a "auth"), subRouteNamesFor_auth (b "auth")]

set_option maxRecDepth 4000 in
/-- Claim C8 (confirmed): `add-module dashboard` with sub-routes
`overview, stats` and `--with-api` creates the two sub-route directories
and exactly two request-handler stub files, one per sub-route, and the
generated handler answers 200 only for the fixed method POST and 405 for
every other method. -/
theorem addModule_dashboard_with_api :
    addModuleAction packagedAuthTemplates true false "dashboard"
        (fun _ => "overview, stats") (FS.mk ["src", "src/app"] []) =
      some (FS.mk
        ["src", "src/app", "src/app/(dashboard)", "src/app/(dashboard)/overview",
         "src/app/(dashboard)/stats", "src/app/api", "src/app/api/dashboard"]
        [("src/app/api/dashboard/stats.ts", apiHandlerContent "stats"),
         ("src/app/api/dashboard/overview.ts", apiHandlerContent "overview"),
         ("src/app/(dashboard)/stats/page.tsx", defaultPageContent "stats"),
         ("src/app/(dashboard)/overview/page.tsx", defaultPageContent "overview")]) ∧
    generatedApiHandlerStatus "POST" = 200 ∧
    ∀ m : String, m ≠ "POST" → generatedApiHandlerStatus m = 405 := by
  refine ⟨by decide, by decide, ?_⟩
  intro m hm
  unfold generatedApiHandlerStatus
  exact if_neg hm

/-- Witness for C8: a non-POST method gets the 405 answer. -/
theorem addModule_dashboard_with_api_witness :
    ("GET" : String) ≠ "POST" ∧ generatedApiHandlerStatus "GET" = 405 :=
  ⟨by decide, addModule_dashboard_with_api.2.2 "GET" (by decide)⟩

set_option maxRecDepth 8000 in
/-- Claim C7 counterexample: running `add-redux user` and then `add-redux
product` leaves `store/slices/userSlice.ts` present, yet the rewritten
aggregator `store/index.ts` is rebuilt only from the second invocation's
names and no longer references `user` anywhere. -/
theorem setupRedux_aggregator_ignores_existing_slices :
    (((addReduxAction "user" (FS.mk ["pages"] [])).bind
        (fun f => addReduxAction "product" f)).map
      (fun f => f.hasFile "store/slices/userSlice.ts") = some true) ∧
    (((addReduxAction "user" (FS.mk ["pages"] [])).bind
        (fun f => addReduxAction "product" f)).bind
      (fun f => f.readFile "store/index.ts") = some (storeContent ["product"])) ∧
    containsSub (storeContent ["product"]) "user" = false := by decide

/-- Claim C7 (amended, corrected): `setupRedux` ensures the store
directory and the default general slice exist and creates one slice file
per name supplied in this invocation, but it rewrites the aggregator
`store/index.ts` to reference the general slice plus only this
invocation's names — slice files created by earlier invocations are not
referenced (see the counterexample theorem). -/
theorem setupRedux_spec (input base : String) (fs : FS) :
    (setupRedux input base fs).readFile (reduxStorePath base) =
        some (storeContent (splitTrim input)) ∧
    (setupRedux input base fs).pathExists (reduxStoreDir base) = true ∧
    (setupRedux input base fs).pathExists
        (reduxSliceDir base ++ "/generalSlice.ts") = true ∧
    ∀ s ∈ splitTrim input,
      (setupRedux input base fs).pathExists
        (reduxSliceDir base ++ "/" ++ s ++ "Slice.ts") = true := by
  refine ⟨?_, ?_, ?_, ?_⟩
  · exact FS.readFile_writeFile_self _ (reduxStorePath base)
      (storeContent (splitTrim input))
  · have d1 := ensureDirsFold_covers (fun d : String => d)
      [reduxStoreDir base, reduxSliceDir base, reduxTypesDir base] fs
      (reduxStoreDir base) (by simp)
    have d2 := ensureFile_pathExists_mono _ (reduxStorePath base)
      initialStoreContent _ d1
    have d3 := ensureFile_pathExists_mono _
      (reduxSliceDir base ++ "/generalSlice.ts") generalSliceContent _ d2
    have d4 := ensureFile_pathExists_mono _
      (reduxTypesDir base ++ "/general.d.ts") generalTypeContent _ d3
    have d5 := ensureFile2Fold_mono
      (fun s : String => reduxSliceDir base ++ "/" ++ s ++ "Slice.ts")
      sliceFileContent (fun s : String => reduxTypesDir base ++ "/" ++ s ++ ".d.ts")
      typeFileContent (splitTrim input) _ _ d4
    have d6 := FS.pathExists_mono_writeFile _ (reduxStorePath base)
      (storeContent (splitTrim input)) _ d5
    exact d6
  · have g1 := ensureFile_pathExists_self
      (ensureFile (setupReduxDirs base fs) (reduxStorePath base) initialStoreContent)
      (reduxSliceDir base ++ "/generalSlice.ts") generalSliceContent
    have g2 := ensureFile_pathExists_mono _
      (reduxTypesDir base ++ "/general.d.ts") generalTypeContent _ g1
    have g3 := ensureFile2Fold_mono
      (fun s : String => reduxSliceDir base ++ "/" ++ s ++ "Slice.ts")
      sliceFileContent (fun s : String => reduxTypesDir base ++ "/" ++ s ++ ".d.ts")
      typeFileContent (splitTrim input) _ _ g2
    have g4 := FS.pathExists_mono_writeFile _ (reduxStorePath base)
      (storeContent (splitTrim input)) _ g3
    exact g4
  · intro s hs
    have c1 := ensureFile2Fold_covers1
      (fun s : String => reduxSliceDir base ++ "/" ++ s ++ "Slice.ts")
      sliceFileContent (fun s : String => reduxTypesDir base ++ "/" ++ s ++ ".d.ts")
      typeFileContent (splitTrim input)
      (setupReduxDefaults base (setupReduxDirs base fs)) s hs
    have c2 := FS.pathExists_mono_writeFile _ (reduxStorePath base)
      (storeContent (splitTrim input)) _ c1
    exact c2

/-- Witness for the amended C7 theorem: the `user` slice file exists after
`setupRedux` is invoked with the slice name `user`. -/
theorem setupRedux_spec_witness :
    (setupRedux "user" "" (FS.mk ["pages"] [])).pathExists
      (reduxSliceDir "" ++ "/" ++ "user" ++ "Slice.ts") = true :=
  (setupRedux_spec "user" "" (FS.mk ["pages"] [])).2.2.2 "user" (by decide)

/-- Claim C9 (confirmed): `add-env` on a missing target file creates it
with exactly one header line before appending the user's variables; on an
existing target with the user declining to append, the filesystem is
returned byte-for-byte unchanged. -/
theorem addEnv_spec (envType envFile vars : String) (fs : FS) :
    (∀ b : Bool, fs.pathExists (joinCwd envFile) = false →
      (addEnvAction envType envFile b vars fs).readFile (joinCwd envFile) =
        some (envHeader envType ++ formatVars vars)) ∧
    (fs.pathExists (joinCwd envFile) = true →
      addEnvAction envType envFile false vars fs = fs) ∧
    ∀ t ∈ [".env", ".env.development", ".env.production", "custom"],
      (splitOnChar '\n' (envHeader t)).length = 2 := by
  refine ⟨?_, ?_, by decide⟩
  · intro b h
    unfold addEnvAction
    split
    · rename_i hc
      rw [h] at hc
      cases hc
    · have h1 := FS.readFile_writeFile_self fs (joinCwd envFile) (envHeader envType)
      unfold FS.appendFile
      rw [h1]
      exact FS.readFile_writeFile_self _ (joinCwd envFile)
        (envHeader envType ++ formatVars vars)
  · intro h
    unfold addEnvAction
    rw [if_pos h, if_pos rfl]

/-- Witness for C9 at a concrete empty filesystem and the default `.env`
choice. -/
theorem addEnv_spec_witness :
    (FS.mk [] []).pathExists (joinCwd ".env") = false ∧
      (addEnvAction ".env" ".env" true "A=1" (FS.mk [] [])).readFile (joinCwd ".env") =
        some (envHeader ".env" ++ formatVars "A=1") :=
  ⟨by decide, (addEnv_spec ".env" ".env" "A=1" (FS.mk [] [])).1 true (by decide)⟩
